import Mathlib

/-!
# Verification of the flaglib command-line argument parsing engine

This file gives a shallow embedding of `src/typescript/flaglib.js` (the first,
richest revision in that file: the one the claims cite by line number) and
proves or refutes the frozen claims about it.

JavaScript's in-place mutation of flag objects and of the argument vector is
modelled by explicit state passing: every function that mutates the registry
returns the updated list of flags, and `parse` returns the rewritten argument
list alongside the error message.  JavaScript truthiness tests on strings
(`if (value)`) become emptiness tests; `undefined` fields become `Option`.
-/

namespace Flaglib

/-- A JavaScript number as far as this library observes it: `NaN`, signed
infinity, or a finite value (modelled as a rational; the library only ever
produces decimal literals). -/
inductive JsNum
  | nan
  | inf (neg : Bool)
  | val (q : ℚ)
deriving DecidableEq

/-- A JavaScript value stored in a flag's mutable `current` slot:
`null` (the unset sentinel), a boolean, a number or a string. -/
inductive JsValue
  | null
  | vb (b : Bool)
  | vn (n : JsNum)
  | vs (s : String)
deriving DecidableEq

/-- JavaScript truthiness of a `current` value, as tested by
`flag.urgent && flag.current`. -/
def JsValue.truthy : JsValue → Bool
  | .null => false
  | .vb b => b
  | .vn .nan => false
  | .vn (.inf _) => true
  | .vn (.val q) => if q = 0 then false else true
  | .vs s => if s = "" then false else true

/-- Characters matched by the host's `\s` regex class and trimmed by its
string→number coercion (ASCII fragment, which is all the library feeds it). -/
def isJsWhitespace (c : Char) : Bool :=
  c = ' ' || c = '\t' || c = '\n' || c = '\r' || c = '\x0b' || c = '\x0c'

/-- Numeric value of a decimal digit character. -/
def digitVal (c : Char) : ℕ := c.toNat - '0'.toNat

/-- Value of a run of decimal digit characters. -/
def digitsToNat (ds : List Char) : ℕ := ds.foldl (fun a c => 10 * a + digitVal c) 0

/-- Split a character list into its leading run of decimal digits and the rest. -/
def takeDigits (cs : List Char) : List Char × List Char :=
  (cs.takeWhile Char.isDigit, cs.dropWhile Char.isDigit)

/-- Scale a mantissa by a decimal exponent (`esign` true means negative). -/
def applyExponent (q : ℚ) (esign : Bool) (e : ℕ) : ℚ :=
  if esign then q / (10 : ℚ) ^ e else q * (10 : ℚ) ^ e

/-- Parse the optional exponent suffix of a decimal literal; `none` on any
leftover characters. -/
def parseExponent (q : ℚ) (cs : List Char) : Option ℚ :=
  match cs with
  | [] => some q
  | c :: rest =>
    if c = 'e' ∨ c = 'E' then
      let signRest : Bool × List Char :=
        match rest with
        | '+' :: r => (false, r)
        | '-' :: r => (true, r)
        | r => (false, r)
      let ds := takeDigits signRest.2
      if ds.1 = [] ∨ ds.2 ≠ [] then none
      else some (applyExponent q signRest.1 (digitsToNat ds.1))
    else none

/-- Parse an unsigned decimal literal (digits, optional fraction, optional
exponent); `none` if the characters are not exactly such a literal. -/
def parseDecimalBody (cs : List Char) : Option ℚ :=
  let ip := takeDigits cs
  match ip.2 with
  | '.' :: rest2 =>
    let fp := takeDigits rest2
    if ip.1 = [] ∧ fp.1 = [] then none
    else
      parseExponent
        ((digitsToNat ip.1 : ℚ) + (digitsToNat fp.1 : ℚ) / (10 : ℚ) ^ fp.1.length)
        fp.2
  | _ =>
    if ip.1 = [] then none
    else parseExponent (digitsToNat ip.1 : ℚ) ip.2

/-- Modelled from the spec: the host language's generic string→number coercion
(JavaScript `Number`, a host builtin not part of the repository), following the
fixed grammar §9 of the spec prescribes for it: surrounding whitespace is
trimmed, the empty string coerces to `0`, then an optional sign followed by
either `Infinity` or a decimal literal (digits, optional fraction, optional
exponent); anything else is `NaN`. -/
def jsToNumber (s : String) : JsNum :=
  let cs := ((s.toList.dropWhile isJsWhitespace).reverse.dropWhile isJsWhitespace).reverse
  if cs = [] then .val 0
  else
    let signBody : Bool × List Char :=
      match cs with
      | '-' :: r => (true, r)
      | '+' :: r => (false, r)
      | r => (false, r)
    if signBody.2 = "Infinity".toList then .inf signBody.1
    else
      match parseDecimalBody signBody.2 with
      | some q => .val (if signBody.1 then -q else q)
      | none => .nan

/- `ErrorKind`: the priority enumeration of parse errors; the numeric value is
the merge priority. -/
namespace ErrorKind

def MISSING_REQUIRED : ℕ := 1

def NOT_A_NUMBER : ℕ := 2

def NOT_ONE_OF : ℕ := 3

def NOT_INVERTABLE : ℕ := 4

def UNEXPECTED_ARG : ℕ := 5

def MISSING_ARG : ℕ := 6

def UNRECOGNIZED_FLAG : ℕ := 7

end ErrorKind

/-- A parse error: a priority kind plus the human-readable message. -/
structure ParseError where
  kind : ℕ
  message : String
deriving DecidableEq

/-- The `ParserError` class constructor: builds the message from the kind and
the offending argument (`morearg` is only used by `NOT_ONE_OF`). -/
def ParserError (kind : ℕ) (arg : String) (morearg : String) : ParseError :=
  { kind := kind
    message :=
      if kind = 1 then "missing required flag - `" ++ arg ++ "`"
      else if kind = 2 then "the `" ++ arg ++ "` flag expects a numerical value"
      else if kind = 3 then "the `" ++ arg ++ "` flag expects one of: " ++ morearg
      else if kind = 4 then "the `" ++ arg ++ "` flag cannot be inverted"
      else if kind = 5 then "the `" ++ arg ++ "` flag does not expect an argument"
      else if kind = 6 then "the `" ++ arg ++ "` flag expects an argument"
      else "unrecognized flag - `" ++ arg ++ "`" }

/-- The tag of the flag descriptor union (`type` field in the source). -/
inductive FlagType
  | boolean
  | number
  | string
deriving DecidableEq

/-- A flag descriptor: the JavaScript object produced by the `boolean` /
`string` / `number` constructors.  Fields that a kind's options type does not
declare stay at their defaults (`none` / `false`); `current` is the mutable
value slot, initially `null`. -/
structure Flag where
  type : FlagType
  long : String
  description : String := ""
  short : Option String := none
  invertable : Bool := false
  urgent : Bool := false
  required : Bool := false
  default : Option JsValue := none
  argOptional : Option String := none
  argName : Option String := none
  oneOf : Option (List String) := none
  current : JsValue := .null
deriving DecidableEq

/-- Options accepted by the `boolean` flag constructor. -/
structure BooleanOptions where
  short : Option String := none
  invertable : Bool := false
  urgent : Bool := false

/-- Options accepted by the `string` flag constructor. -/
structure StringOptions where
  short : Option String := none
  invertable : Bool := false
  default : Option String := none
  argOptional : Option String := none
  argName : Option String := none
  oneOf : Option (List String) := none
  required : Bool := false

/-- Options accepted by the `number` flag constructor. -/
structure NumberOptions where
  short : Option String := none
  invertable : Bool := false
  default : Option ℚ := none
  argName : Option String := none
  required : Bool := false

/-- `flag.boolean`: define a boolean flag. -/
def boolean (long description : String) (options : BooleanOptions) : Flag :=
  { type := .boolean, long := long, description := description,
    short := options.short, invertable := options.invertable,
    urgent := options.urgent, current := .null }

/-- `flag.string`: define a string flag. -/
def string (long description : String) (options : StringOptions) : Flag :=
  { type := .string, long := long, description := description,
    short := options.short, invertable := options.invertable,
    default := options.default.map JsValue.vs,
    argOptional := options.argOptional, argName := options.argName,
    oneOf := options.oneOf, required := options.required, current := .null }

/-- `flag.number`: define a number flag. -/
def number (long description : String) (options : NumberOptions) : Flag :=
  { type := .number, long := long, description := description,
    short := options.short, invertable := options.invertable,
    default := options.default.map (fun q => JsValue.vn (.val q)),
    argName := options.argName, required := options.required, current := .null }

/-- `String.prototype.startsWith`, computed on the character lists so that it
reduces inside the kernel. -/
def jsStartsWith (s p : String) : Bool :=
  s.toList.take p.toList.length == p.toList

/-- `ArgType`: the classification of a raw command-line token. -/
inductive ArgType
  | FLAG_LONG
  | FLAG_SHORT
  | POSITIONAL
  | FORCE_FLAG_END
deriving DecidableEq

/-- `parseArgType`: classify a CLI token.  (`arg[0] === "-"` is a test on the
first character, false for the empty string.) -/
def parseArgType (arg : String) (forceEnd : Bool) : ArgType :=
  if forceEnd then .POSITIONAL
  else if arg = "--" then .FORCE_FLAG_END
  else if jsStartsWith arg "--" then .FLAG_LONG
  else if arg.toList.head? = some '-' then .FLAG_SHORT
  else .POSITIONAL

/-- The source's generic `stringify`, specialised to its only parser-side
argument type (an array of strings, from `oneOf`): a string containing
whitespace is wrapped in double quotes. -/
def stringifyString (s : String) : String :=
  if s.toList.any isJsWhitespace then "\"" ++ s ++ "\"" else s

/-- `stringify` on an array of strings: elements stringified and joined with
`", "`. -/
def stringify (l : List String) : String :=
  String.intercalate ", " (l.map stringifyString)

/-- `setFlagValue`: convert/validate `value` and store it into `flag.current`,
returning the error (if any) together with the mutated flag.  Number kind
stores the conversion result even when it is `NaN`; string kind stores the raw
value even when the `oneOf` check fails; boolean kind never takes a value. -/
def setFlagValue (flag : Flag) (value : String) (arg : String) :
    Option ParseError × Flag :=
  match flag.type with
  | .number =>
    let n := jsToNumber value
    ((if n = .nan then some (ParserError ErrorKind.NOT_A_NUMBER arg "") else none),
     { flag with current := .vn n })
  | .string =>
    ((match flag.oneOf with
      | some l =>
        if l.contains value then none
        else some (ParserError ErrorKind.NOT_ONE_OF arg (stringify l))
      | none => none),
     { flag with current := .vs value })
  | .boolean => (some (ParserError ErrorKind.UNEXPECTED_ARG arg ""), flag)

/-- `setError`: merge a newly produced error into the retained one; only a
strictly higher kind replaces the current error. -/
def setError (error newError : Option ParseError) : Option ParseError :=
  match newError with
  | none => error
  | some n =>
    match error with
    | none => some n
    | some e => if n.kind > e.kind then some n else some e

/-- `Array.prototype.find` returning the index of the first match alongside the
element, so the caller can write the mutated object back (the JavaScript
original mutates through the reference). -/
def findWithIdx (p : Flag → Bool) : List Flag → Option (ℕ × Flag)
  | [] => none
  | f :: fs => if p f then some (0, f) else (findWithIdx p fs).map (fun r => (r.1 + 1, r.2))

/-- The result of `parseShortFlag` / `parseLongFlag` as seen by the driver:
either an error-or-null (`typeof x !== "number"`) or a new scan index. -/
inductive FlagResult
  | perr (e : Option ParseError)
  | pos (n : ℕ)
deriving DecidableEq

/-- The character loop of `parseShortFlag`: `arg` is the dash-stripped bundle,
the `List Char` argument is the remaining run of short-flag characters.
Mutations performed before an error return persist. -/
def shortLoop (argPos : ℕ) (args : List String) (arg : String) :
    List Char → Option ParseError → List Flag → FlagResult × List Flag
  | [], error, flags =>
    ((match error with
      | some e => .perr (some e)
      | none => .pos argPos), flags)
  | c :: rest, error, flags =>
    let miniflag := String.mk [c]
    let value := String.mk rest
    match findWithIdx (fun fl => fl.short == some miniflag) flags with
    | none =>
      shortLoop argPos args arg rest
        (setError error (some (ParserError ErrorKind.UNRECOGNIZED_FLAG miniflag "")))
        flags
    | some (idx, validFlag) =>
      if validFlag.type = .boolean then
        shortLoop argPos args arg rest error
          (flags.set idx { validFlag with current := .vb true })
      else if value ≠ "" then
        let r := setFlagValue validFlag value miniflag
        (.perr (setError error r.1), flags.set idx r.2)
      else if validFlag.type = .string ∧ validFlag.argOptional.isSome then
        shortLoop argPos args arg rest error
          (flags.set idx { validFlag with current := .vs (validFlag.argOptional.getD "") })
      else
        let next := (args.get? (argPos + 1)).getD ""
        if next ≠ "" ∧ parseArgType next false = .POSITIONAL then
          let r := setFlagValue validFlag next miniflag
          ((match setError error r.1 with
            | some e => .perr (some e)
            | none => .pos (argPos + 1)), flags.set idx r.2)
        else
          (.perr (some (ParserError ErrorKind.MISSING_ARG arg "")), flags)

/-- `parseShortFlag`: process the short-flag bundle at `args[argPos]`. -/
def parseShortFlag (argPos : ℕ) (args : List String) (flags : List Flag) :
    FlagResult × List Flag :=
  let arg := ((args.get? argPos).getD "").drop 1
  shortLoop argPos args arg arg.toList none flags

/-- `isInverted`: does the dash-stripped token `arg` address `flagLong` through
a `no-` inversion (in either direction)? -/
def isInverted (flagLong arg : String) : Bool :=
  (jsStartsWith flagLong "no-" && arg == flagLong.drop 3) ||
  (jsStartsWith arg "no-" && flagLong == arg.drop 3)

/-- The `flags.find` call of `parseLongFlag`'s non-`=` path: the first flag
matching either by inversion (checked first, setting the `inverted` flag) or by
exact long name, together with its index. -/
def findLongFlag (arg : String) : List Flag → Option (ℕ × Flag × Bool)
  | [] => none
  | f :: fs =>
    if isInverted f.long arg then some (0, f, true)
    else if f.long = arg then some (0, f, false)
    else (findLongFlag arg fs).map (fun r => (r.1 + 1, r.2))

/-- `parseLongFlag`: process the long flag at `argv[i]`.  Returns the new scan
index on success (the driver's loop increment still applies) or the error. -/
def parseLongFlag (i : ℕ) (argv : List String) (flags : List Flag) :
    FlagResult × List Flag :=
  let arg := ((argv.get? i).getD "").drop 2
  if arg.toList.contains '=' then
    let argKey := String.mk (arg.toList.takeWhile (fun c => c ≠ '='))
    match findWithIdx (fun fl => fl.long == argKey) flags with
    | none => (.perr (some (ParserError ErrorKind.UNRECOGNIZED_FLAG argKey "")), flags)
    | some (idx, validFlag) =>
      let argValue := String.mk ((arg.toList.dropWhile (fun c => c ≠ '=')).drop 1)
      if argValue = "" then
        (.perr (some (ParserError ErrorKind.MISSING_ARG argKey "")), flags)
      else
        let r := setFlagValue validFlag argValue argKey
        ((match r.1 with
          | some e => .perr (some e)
          | none => .pos i), flags.set idx r.2)
  else
    match findLongFlag arg flags with
    | none => (.perr (some (ParserError ErrorKind.UNRECOGNIZED_FLAG arg "")), flags)
    | some (idx, validFlag, inverted) =>
      if inverted then
        if !validFlag.invertable then
          (.perr (some (ParserError ErrorKind.NOT_INVERTABLE validFlag.long "")), flags)
        else
          (.pos i,
           flags.set idx
             { validFlag with
               current :=
                 match validFlag.type with
                 | .boolean => .vb false
                 | .string => .vs ""
                 | .number => .vn (.val 0) })
      else if validFlag.type = .boolean then
        (.pos i, flags.set idx { validFlag with current := .vb true })
      else
        let argValue := (argv.get? (i + 1)).getD ""
        if argValue = "" ∨ parseArgType argValue false ≠ .POSITIONAL then
          if validFlag.type = .string ∧ validFlag.argOptional.isSome then
            (.pos (i + 1),
             flags.set idx { validFlag with current := .vs (validFlag.argOptional.getD "") })
          else
            (.perr (some (ParserError ErrorKind.MISSING_ARG arg "")), flags)
        else
          let r := setFlagValue validFlag argValue arg
          ((match r.1 with
            | some e => .perr (some e)
            | none => .pos (i + 1)), flags.set idx r.2)

/-- The driver's token loop.  `fuel` is `argv.length`, enough for the index to
run off the end since every iteration advances it by at least one (the parse
helpers only ever return `argPos` or `argPos + 1`). -/
def parseLoop (argv : List String) :
    ℕ → ℕ → Option ParseError → Bool → List String → List Flag →
    Option ParseError × List Flag × List String
  | 0, _, error, _, restArgv, flags => (error, flags, restArgv)
  | fuel + 1, i, error, forceFlagEnd, restArgv, flags =>
    if i < argv.length then
      let arg := (argv.get? i).getD ""
      match parseArgType arg forceFlagEnd with
      | .FORCE_FLAG_END => parseLoop argv fuel (i + 1) error true restArgv flags
      | .POSITIONAL => parseLoop argv fuel (i + 1) error forceFlagEnd (restArgv ++ [arg]) flags
      | .FLAG_SHORT =>
        let r := parseShortFlag i argv flags
        match r.1 with
        | .pos n => parseLoop argv fuel (n + 1) error forceFlagEnd restArgv r.2
        | .perr e => parseLoop argv fuel (i + 1) (setError error e) forceFlagEnd restArgv r.2
      | .FLAG_LONG =>
        let r := parseLongFlag i argv flags
        match r.1 with
        | .pos n => parseLoop argv fuel (n + 1) error forceFlagEnd restArgv r.2
        | .perr e => parseLoop argv fuel (i + 1) (setError error e) forceFlagEnd restArgv r.2
    else (error, flags, restArgv)

/-- The scan phase of `parse`: the token loop from index 0 with empty state. -/
def parseScan (argv : List String) (flags : List Flag) :
    Option ParseError × List Flag × List String :=
  parseLoop argv argv.length 0 none false [] flags

/-- Result of the post-scan descriptor walk: either the early `return null` of
an urgent flag (carrying the registry as mutated so far) or the final error and
registry. -/
inductive PostResult
  | urgentStop (flags : List Flag)
  | finished (error : Option ParseError) (flags : List Flag)
deriving DecidableEq

/-- The post-scan walk of `parse`: an urgent flag whose current value is truthy
returns success immediately; otherwise unset non-boolean flags contribute
`MISSING_REQUIRED` or receive their default. -/
def postCheck : List Flag → Option ParseError → PostResult
  | [], error => .finished error []
  | f :: rest, error =>
    if f.urgent && f.current.truthy then .urgentStop (f :: rest)
    else
      let step : Option ParseError × Flag :=
        if f.current = .null ∧ f.type ≠ .boolean then
          if f.required then
            (setError error (some (ParserError ErrorKind.MISSING_REQUIRED f.long "")), f)
          else if f.default.isSome then (error, { f with current := f.default.getD .null })
          else (error, f)
        else (error, f)
      match postCheck rest step.1 with
      | .urgentStop rest' => .urgentStop (step.2 :: rest')
      | .finished e rest' => .finished e (step.2 :: rest')

/-- `flag.parse`: scan the argument vector, run the post-checks, and splice the
residual positionals back into the caller's argument list.  Returns the error
message (or `null`), the mutated registry, and the argument list as the caller
sees it afterwards — note the urgent early return happens *before* the splice,
so in that case the argument list is left untouched. -/
def parse (argv : List String) (flags : List Flag) :
    Option String × List Flag × List String :=
  let r := parseScan argv flags
  match postCheck r.2.1 r.1 with
  | .urgentStop flags2 => (none, flags2, argv)
  | .finished error' flags2 => (error'.map ParseError.message, flags2, r.2.2)

/-- Registry entries as the caller passes them: flag descriptors mixed with
section-header strings (the latter are filtered out before parsing). -/
inductive RegistryEntry
  | header (s : String)
  | flag (f : Flag)

/-- The `flags.filter(flag => typeof flag !== "string")` step of `parse`. -/
def realFlags (entries : List RegistryEntry) : List Flag :=
  entries.filterMap fun e =>
    match e with
    | .header _ => none
    | .flag f => some f

/-- `flag.parse` on a full registry (headers included). -/
def parseRegistry (argv : List String) (entries : List RegistryEntry) :
    Option String × List Flag × List String :=
  parse argv (realFlags entries)

/-- Instrumented mirror of `shortLoop` that reports every `ParserError` the
bundle scan constructs, in construction order, instead of merging them; used to
compare the surfaced error against the full set of errors encountered. -/
def shortLoopCollect (argPos : ℕ) (args : List String) (arg : String) :
    List Char → List Flag → List ParseError × List Flag
  | [], flags => ([], flags)
  | c :: rest, flags =>
    let miniflag := String.mk [c]
    let value := String.mk rest
    match findWithIdx (fun fl => fl.short == some miniflag) flags with
    | none =>
      let r := shortLoopCollect argPos args arg rest flags
      (ParserError ErrorKind.UNRECOGNIZED_FLAG miniflag "" :: r.1, r.2)
    | some (idx, validFlag) =>
      if validFlag.type = .boolean then
        shortLoopCollect argPos args arg rest
          (flags.set idx { validFlag with current := .vb true })
      else if value ≠ "" then
        let r := setFlagValue validFlag value miniflag
        (r.1.toList, flags.set idx r.2)
      else if validFlag.type = .string ∧ validFlag.argOptional.isSome then
        shortLoopCollect argPos args arg rest
          (flags.set idx { validFlag with current := .vs (validFlag.argOptional.getD "") })
      else
        let next := (args.get? (argPos + 1)).getD ""
        if next ≠ "" ∧ parseArgType next false = .POSITIONAL then
          let r := setFlagValue validFlag next miniflag
          (r.1.toList, flags.set idx r.2)
        else
          ([ParserError ErrorKind.MISSING_ARG arg ""], flags)

/-- Folding a sequence of recorded errors into the retained one through
`setError`, exactly as the driver accumulates them. -/
def mergeAll (l : List ParseError) : Option ParseError :=
  l.foldl (fun acc e => setError acc (some e)) none

/- Concrete registries used by the claims' example laws (built with the
public constructors, mirroring the example program). -/

/-- A plain boolean flag `-a`/`--alpha`. -/
def alphaFlag : Flag := boolean "alpha" "" { short := some "a" }

/-- A required string flag `-b`/`--beta` with no `argOptional`. -/
def betaFlag : Flag := string "beta" "" { short := some "b", required := true }

/-- A non-required string flag `-b`/`--beta` with no `argOptional`. -/
def betaOptFlag : Flag := string "beta" "" { short := some "b" }

/-- An urgent boolean flag `-h`/`--help`. -/
def helpFlag : Flag := boolean "help" "" { short := some "h", urgent := true }

/-- A required number flag `-a`/`--age`. -/
def ageFlag : Flag := number "age" "" { short := some "a", required := true }

/-- A plain number flag `-c`/`--count`. -/
def countFlag : Flag := number "count" "" { short := some "c" }

/-- An invertable boolean flag `-v`/`--verbose`. -/
def verboseFlag : Flag := boolean "verbose" "" { short := some "v", invertable := true }

/-- A non-invertable boolean flag `--verbose`. -/
def plainVerboseFlag : Flag := boolean "verbose" "" {}

/-- A plain string flag `--name` with no `argOptional`. -/
def nameFlag : Flag := string "name" "" {}

/-- A string flag `--mode` restricted to `oneOf: ["a", "b"]`. -/
def modeFlag : Flag := string "mode" "" { oneOf := some ["a", "b"] }

/-- Claim C1 is false on the code: parsing `["-ab", "extra"]` where `-a` is
boolean and `-b` is a required string flag without `argOptional` does not
record `MISSING_ARG` and does not leave `"extra"` unconsumed — the bundle scan
consumes `"extra"` as `-b`'s value, the parse succeeds, and no residual
positional remains. -/
theorem c1_counterexample :
    parse ["-ab", "extra"] [alphaFlag, betaFlag] =
      (none,
       [{ alphaFlag with current := .vb true },
        { betaFlag with current := .vs "extra" }], []) := by
  decide

/-- Claim C1 (amended): when a short-flag bundle reaches a value-taking
(non-boolean) flag character whose tail is empty and whose descriptor has no
applicable `argOptional`, the outcome depends on the next argument-vector
token: if it is absent, empty, or classifies as non-POSITIONAL, the scan
returns `MISSING_ARG` citing the dash-stripped bundle at once; otherwise the
next token is bound as the flag's value (stored into `current` even when the
bind fails), and the scan index advances past it only when neither the bind
nor an earlier character of the bundle produced an error — if an error is
merged, that error is returned instead, the index does not advance, and the
driver re-scans the same token.  In particular `["-ab", "extra"]` binds
`-b`'s value to `"extra"` with no error rather than triggering `MISSING_ARG`. -/
theorem c1_theorem (argPos : ℕ) (args : List String) (arg : String) (c : Char)
    (error : Option ParseError) (flags : List Flag) (idx : ℕ) (f : Flag)
    (hfind : findWithIdx (fun fl => fl.short == some (String.mk [c])) flags = some (idx, f))
    (hty : ¬f.type = .boolean)
    (hao : ¬(f.type = .string ∧ f.argOptional.isSome)) :
    shortLoop argPos args arg [c] error flags =
      (if ((args.get? (argPos + 1)).getD "" ≠ "" ∧
            parseArgType ((args.get? (argPos + 1)).getD "") false = .POSITIONAL) then
         ((match setError error
              (setFlagValue f ((args.get? (argPos + 1)).getD "") (String.mk [c])).1 with
           | some e => FlagResult.perr (some e)
           | none => FlagResult.pos (argPos + 1)),
          flags.set idx (setFlagValue f ((args.get? (argPos + 1)).getD "") (String.mk [c])).2)
       else (FlagResult.perr (some (ParserError ErrorKind.MISSING_ARG arg "")), flags)) ∧
    (parse ["-ab", "extra"] [alphaFlag, betaFlag]).1 = none ∧
    (parse ["-ab", "extra"] [alphaFlag, betaFlag]).2.1.map Flag.current =
      [.vb true, .vs "extra"] := by
  refine ⟨?_, by decide, by decide⟩
  have hempty : (String.mk ([] : List Char)) = "" := rfl
  simp only [shortLoop, hfind, hempty]
  rw [if_neg hty, if_neg (by simp), if_neg hao]

/-- Witness for the amended C1 theorem: with `-b` a string flag and no further
token, the single-character bundle `"b"` produces `MISSING_ARG` citing the
bundle. -/
theorem c1_witness :
    shortLoop 0 ["-b"] "b" ['b'] none [betaOptFlag] =
      (FlagResult.perr (some (ParserError ErrorKind.MISSING_ARG "b" "")), [betaOptFlag]) := by
  have h := (c1_theorem 0 ["-b"] "b" 'b' none [betaOptFlag] 0 betaOptFlag
    (by decide) (by decide) (by decide)).1
  rw [h]
  decide

/-- Helper: folding errors through `setError` from a seeded accumulator keeps
exactly the first error of maximal kind among the seed and the folded list. -/
theorem setError_foldl_max (es : List ParseError) :
    ∀ a : ParseError,
      ∃ r l₁ l₂,
        es.foldl (fun acc e => setError acc (some e)) (some a) = some r ∧
        a :: es = l₁ ++ r :: l₂ ∧
        (∀ x ∈ l₁, x.kind < r.kind) ∧ (∀ x ∈ l₂, x.kind ≤ r.kind) := by
  induction es with
  | nil =>
    intro a
    exact ⟨a, [], [], rfl, rfl, by simp, by simp⟩
  | cons e es ih =>
    intro a
    by_cases h : e.kind > a.kind
    · obtain ⟨r, l₁, l₂, hfold, hdec, hpre, hsuf⟩ := ih e
      refine ⟨r, a :: l₁, l₂, ?_, ?_, ?_, hsuf⟩
      · simpa [setError, h] using hfold
      · simpa using congrArg (List.cons a) hdec
      · intro x hx
        rcases List.mem_cons.mp hx with hx | hx
        · subst hx
          have he : e.kind ≤ r.kind := by
            cases l₁ with
            | nil =>
              have h1 : e = r ∧ es = l₂ := by simpa using hdec
              simp [h1.1]
            | cons y l₁' =>
              have h1 : e = y ∧ es = l₁' ++ r :: l₂ := by simpa using hdec
              exact le_of_lt (by simpa [← h1.1] using hpre y (by simp))
          exact lt_of_lt_of_le h he
        · exact hpre x hx
    · obtain ⟨r, l₁, l₂, hfold, hdec, hpre, hsuf⟩ := ih a
      have hstep :
          (e :: es).foldl (fun acc x => setError acc (some x)) (some a) =
            es.foldl (fun acc x => setError acc (some x)) (some a) := by
        simp [setError, h]
      cases l₁ with
      | nil =>
        have h1 : a = r ∧ es = l₂ := by simpa using hdec
        refine ⟨r, [], e :: l₂, ?_, ?_, by simp, ?_⟩
        · rw [hstep]; exact hfold
        · simp [← h1.1, ← h1.2]
        · intro x hx
          rcases List.mem_cons.mp hx with hx | hx
          · subst hx
            have := not_lt.mp h
            simpa [← h1.1] using this
          · exact hsuf x (h1.2 ▸ hx)
      | cons y l₁' =>
        have h1 : a = y ∧ es = l₁' ++ r :: l₂ := by simpa using hdec
        have hay : a = y := h1.1
        have hes : es = l₁' ++ r :: l₂ := h1.2
        refine ⟨r, a :: e :: l₁', l₂, ?_, ?_, ?_, hsuf⟩
        · rw [hstep]; exact hfold
        · simp [hes]
        · intro x hx
          have hak : a.kind < r.kind := by
            have := hpre y (by simp)
            simpa [← hay] using this
          rcases List.mem_cons.mp hx with hx | hx
          · subst hx; exact hak
          · rcases List.mem_cons.mp hx with hx | hx
            · subst hx; exact lt_of_le_of_lt (not_lt.mp h) hak
            · exact hpre x (by simp [hx])

/-- Claim C2 is false as stated: in the pass over `["-xb"]` (with `-b` a
string flag and `x` unmatched), the bundle scan constructs an
`UNRECOGNIZED_FLAG` error of kind 7 and then a `MISSING_ARG` error of kind 6,
yet the surfaced message is the kind-6 `MISSING_ARG` one — a recorded error
was replaced by one of strictly smaller kind, because the bundle's
`MISSING_ARG` termination discards the local accumulator. -/
theorem c2_counterexample :
    (shortLoopCollect 0 ["-xb"] "xb" ['x', 'b'] [betaOptFlag]).1 =
      [ParserError ErrorKind.UNRECOGNIZED_FLAG "x" "",
       ParserError ErrorKind.MISSING_ARG "xb" ""] ∧
    (parse ["-xb"] [betaOptFlag]).1 = some "the `xb` flag expects an argument" ∧
    ErrorKind.MISSING_ARG < ErrorKind.UNRECOGNIZED_FLAG := by
  decide

/-- Claim C2 (amended): every merge of recorded errors through `setError`
(the driver's accumulation) retains the earliest error of the highest kind —
a recorded error is replaced only by one of strictly greater kind — except
that a short-bundle `MISSING_ARG` termination discards errors recorded
earlier in the same bundle.  Consequently a pass producing exactly
`MISSING_REQUIRED` (kind 1) and `NOT_A_NUMBER` (kind 2) surfaces the
`NOT_A_NUMBER` message. -/
theorem c2_theorem :
    (∀ (es : List ParseError) (r : ParseError),
        mergeAll es = some r →
        ∃ l₁ l₂, es = l₁ ++ r :: l₂ ∧
          (∀ x ∈ l₁, x.kind < r.kind) ∧ (∀ x ∈ l₂, x.kind ≤ r.kind)) ∧
    (parse ["--count", "abc"] [countFlag, ageFlag]).1 =
      some "the `count` flag expects a numerical value" ∧
    ErrorKind.MISSING_REQUIRED < ErrorKind.NOT_A_NUMBER := by
  refine ⟨?_, by decide, by decide⟩
  intro es r h
  cases es with
  | nil => simp [mergeAll] at h
  | cons e es =>
    have hm : mergeAll (e :: es) =
        es.foldl (fun acc x => setError acc (some x)) (some e) := by
      simp [mergeAll, setError]
    rw [hm] at h
    obtain ⟨r', l₁, l₂, hfold, hdec, hpre, hsuf⟩ := setError_foldl_max es e
    rw [hfold] at h
    injection h with h
    subst h
    exact ⟨l₁, l₂, hdec, hpre, hsuf⟩

/-- Witness for the amended C2 theorem at the concrete error pair of the
priority law: merging `MISSING_REQUIRED` then `NOT_A_NUMBER` retains the
`NOT_A_NUMBER` error, which decomposes as the earliest maximal-kind error. -/
theorem c2_witness :
    ∃ l₁ l₂,
      [ParserError ErrorKind.MISSING_REQUIRED "age" "",
       ParserError ErrorKind.NOT_A_NUMBER "count" ""] =
        l₁ ++ (ParserError ErrorKind.NOT_A_NUMBER "count" "") :: l₂ ∧
      (∀ x ∈ l₁, x.kind < (ParserError ErrorKind.NOT_A_NUMBER "count" "").kind) ∧
      (∀ x ∈ l₂, x.kind ≤ (ParserError ErrorKind.NOT_A_NUMBER "count" "").kind) :=
  c2_theorem.1 _ _ (by decide)

/-- Helper: the post-scan walk ends in the urgent early return whenever some
flag in the list is urgent with a truthy current value — earlier flags'
required/default processing never touches a later flag, and the only early
exit is that same urgent return. -/
theorem postCheck_urgentStop (flags : List Flag) :
    ∀ (error : Option ParseError) (f : Flag), f ∈ flags →
      f.urgent = true → f.current.truthy = true →
      ∃ fs, postCheck flags error = .urgentStop fs := by
  induction flags with
  | nil =>
    intro error f hf
    simp at hf
  | cons g rest ih =>
    intro error f hf hu ht
    by_cases hg : (g.urgent && g.current.truthy) = true
    · exact ⟨g :: rest, by simp [postCheck, hg]⟩
    · rcases List.mem_cons.mp hf with hf | hf
      · subst hf
        rw [hu, ht] at hg
        simp at hg
      · simp only [postCheck]
        rw [if_neg hg]
        obtain ⟨fs, hfs⟩ := ih _ f hf hu ht
        rw [hfs]
        exact ⟨_, rfl⟩

/-- Claim C3: if after the full scan some boolean descriptor is urgent and its
current value is `true`, `parse` returns `null` (success), regardless of every
error accumulated during the scan and of the required/default post-checks. -/
theorem c3_theorem (argv : List String) (flags : List Flag) (f : Flag)
    (hf : f ∈ (parseScan argv flags).2.1)
    (hu : f.urgent = true) (hb : f.type = .boolean) (hc : f.current = .vb true) :
    (parse argv flags).1 = none := by
  have ht : f.current.truthy = true := by rw [hc]; rfl
  obtain ⟨fs, hfs⟩ :=
    postCheck_urgentStop (parseScan argv flags).2.1 (parseScan argv flags).1 f hf hu ht
  simp [parse, hfs]

/-- Witness for C3, the spec's `urgent` law: `["--help", "--age",
"not-a-number"]` with `--help` urgent parses successfully despite the
malformed `--age` value. -/
theorem c3_witness :
    (parse ["--help", "--age", "not-a-number"] [helpFlag, ageFlag]).1 = none :=
  c3_theorem ["--help", "--age", "not-a-number"] [helpFlag, ageFlag]
    { helpFlag with current := .vb true } (by decide) (by decide) (by decide) (by decide)

/-- Claim C4 is false as stated: after `--name` the next token `""` is present
and classifies as POSITIONAL, yet the code records `MISSING_ARG` instead of
binding it (the `!argValue` test treats an empty token as absent), and the
empty token is re-scanned as a positional. -/
theorem c4_counterexample :
    parseArgType "" false = .POSITIONAL ∧
    parse ["--name", ""] [nameFlag] =
      (some "the `name` flag expects an argument", [nameFlag], [""]) := by
  decide

/-- Claim C4 (amended): for a long string/number flag matched without `=` and
without inversion, if the next token is absent, empty, or classifies as
non-POSITIONAL then `argOptional` is applied when defined (string kind) and
otherwise `MISSING_ARG` is recorded; if the next token is present, non-empty
and POSITIONAL it is bound as the flag's value (stored into `current` even on
a failed bind) and the scan index advances by one extra position exactly when
the bind returns no error — on a bind failure the error is returned, the
index does not advance, and the driver re-scans the value token.  For the
valid invocations `--name=joe` and `--count 3` the bound current value equals
the value after kind-specific conversion. -/
theorem c4_theorem (i : ℕ) (argv : List String) (flags : List Flag)
    (idx : ℕ) (f : Flag) (arg : String)
    (harg : ((argv.get? i).getD "").drop 2 = arg)
    (heq : arg.toList.contains '=' = false)
    (hfind : findLongFlag arg flags = some (idx, f, false))
    (hty : ¬f.type = .boolean) :
    parseLongFlag i argv flags =
      (if ((argv.get? (i + 1)).getD "" = "" ∨
            parseArgType ((argv.get? (i + 1)).getD "") false ≠ .POSITIONAL) then
         (if f.type = .string ∧ f.argOptional.isSome then
            (FlagResult.pos (i + 1),
             flags.set idx { f with current := .vs (f.argOptional.getD "") })
          else (FlagResult.perr (some (ParserError ErrorKind.MISSING_ARG arg "")), flags))
       else
         ((match (setFlagValue f ((argv.get? (i + 1)).getD "") arg).1 with
           | some e => FlagResult.perr (some e)
           | none => FlagResult.pos (i + 1)),
          flags.set idx (setFlagValue f ((argv.get? (i + 1)).getD "") arg).2)) ∧
    parse ["--count", "3"] [countFlag] =
      (none, [{ countFlag with current := .vn (.val 3) }], []) ∧
    parse ["--name=joe"] [nameFlag] =
      (none, [{ nameFlag with current := .vs "joe" }], []) := by
  refine ⟨?_, by decide, by decide⟩
  simp only [parseLongFlag]
  rw [harg]
  simp only [heq, Bool.false_eq_true, if_false, hfind]
  simp only [if_neg hty]

/-- Witness for the amended C4 theorem: `--name` with no following token
records `MISSING_ARG` for the `name` flag. -/
theorem c4_witness :
    parseLongFlag 0 ["--name"] [nameFlag] =
      (FlagResult.perr (some (ParserError ErrorKind.MISSING_ARG "name" "")), [nameFlag]) := by
  have h := (c4_theorem 0 ["--name"] [nameFlag] 0 nameFlag "name"
    (by decide) (by decide) (by decide) (by decide)).1
  rw [h]
  decide

/-- Helper: when no flag is urgent with a truthy current value, the post-scan
walk runs to completion (no urgent early return). -/
theorem postCheck_finished (flags : List Flag) :
    ∀ error : Option ParseError,
      (∀ f ∈ flags, ¬(f.urgent = true ∧ f.current.truthy = true)) →
      ∃ e fs, postCheck flags error = .finished e fs := by
  induction flags with
  | nil =>
    intro error _
    exact ⟨error, [], rfl⟩
  | cons g rest ih =>
    intro error h
    have hg : ¬((g.urgent && g.current.truthy) = true) := by
      intro hgg
      exact h g (by simp) ⟨(Bool.and_eq_true _ _ |>.mp hgg).1, (Bool.and_eq_true _ _ |>.mp hgg).2⟩
    simp only [postCheck]
    rw [if_neg hg]
    obtain ⟨e, fs, hfs⟩ := ih _ (fun f hf => h f (by simp [hf]))
    rw [hfs]
    exact ⟨e, _, rfl⟩

/-- Claim C5 is false as stated: `["--help"]` with an urgent `--help` flag
parses successfully, yet the caller's argument list is left as `["--help"]`
even though the residual positionals of the scan are `[]` — the urgent early
return happens before the splice, so the container is not rewritten. -/
theorem c5_counterexample :
    parse ["--help"] [helpFlag] =
      (none, [{ helpFlag with current := .vb true }], ["--help"]) ∧
    (parseScan ["--help"] [helpFlag]).2.2 = [] := by
  decide

/-- Claim C5 (amended): on every parse that is not short-circuited by an
urgent flag, the caller's argument list is rewritten to exactly the residual
positional arguments of the scan, in original relative order (an urgent
short-circuit leaves the list untouched).  The round-trip law holds:
`["pos1", "--count", "3", "pos2"]` yields `count.current == 3` and the
argument list `["pos1", "pos2"]`. -/
theorem c5_theorem :
    (∀ (argv : List String) (flags : List Flag),
       (∀ f ∈ (parseScan argv flags).2.1, ¬(f.urgent = true ∧ f.current.truthy = true)) →
       (parse argv flags).2.2 = (parseScan argv flags).2.2) ∧
    parse ["pos1", "--count", "3", "pos2"] [countFlag] =
      (none, [{ countFlag with current := .vn (.val 3) }], ["pos1", "pos2"]) := by
  refine ⟨?_, by decide⟩
  intro argv flags h
  obtain ⟨e, fs, hfs⟩ :=
    postCheck_finished (parseScan argv flags).2.1 (parseScan argv flags).1 h
  simp [parse, hfs]

/-- Witness for the amended C5 theorem at a concrete input with no urgent
flag: the returned argument list is the scan's residual positionals. -/
theorem c5_witness :
    (parse ["x"] []).2.2 = (parseScan ["x"] []).2.2 :=
  c5_theorem.1 ["x"] [] (by decide)

/-- Claim C6: a long token without `=` that matches a descriptor by `no-`
inversion (in either direction) produces `NOT_INVERTABLE` when the descriptor
lacks `invertable`, and otherwise resets the current value to `false` / `""` /
`0` by kind, consuming no further token (the returned scan index is unchanged).
In particular `["--no-verbose"]` sets an invertable boolean `verbose` flag to
`false`, and yields `NOT_INVERTABLE` for a non-invertable one. -/
theorem c6_theorem (i : ℕ) (argv : List String) (flags : List Flag)
    (idx : ℕ) (f : Flag) (arg : String)
    (harg : ((argv.get? i).getD "").drop 2 = arg)
    (heq : arg.toList.contains '=' = false)
    (hfind : findLongFlag arg flags = some (idx, f, true)) :
    parseLongFlag i argv flags =
      (if f.invertable then
         (FlagResult.pos i,
          flags.set idx
            { f with
              current :=
                match f.type with
                | .boolean => .vb false
                | .string => .vs ""
                | .number => .vn (.val 0) })
       else (FlagResult.perr (some (ParserError ErrorKind.NOT_INVERTABLE f.long "")), flags)) ∧
    parse ["--no-verbose"] [verboseFlag] =
      (none, [{ verboseFlag with current := .vb false }], []) ∧
    (parse ["--no-verbose"] [plainVerboseFlag]).1 =
      some "the `verbose` flag cannot be inverted" := by
  refine ⟨?_, by decide, by decide⟩
  simp only [parseLongFlag]
  rw [harg]
  simp only [heq, Bool.false_eq_true, if_false, hfind]
  cases hi : f.invertable <;> simp [hi]

/-- Witness for C6: `--no-verbose` on the invertable `verbose` flag resets it
to `false` without consuming a further token. -/
theorem c6_witness :
    parseLongFlag 0 ["--no-verbose"] [verboseFlag] =
      (FlagResult.pos 0, [{ verboseFlag with current := .vb false }]) := by
  have h := (c6_theorem 0 ["--no-verbose"] [verboseFlag] 0 verboseFlag "no-verbose"
    (by decide) (by decide) (by decide)).1
  rw [h]
  decide

/-- Claim C7: binding a raw value to a number-kind flag always stores the
conversion result into `current` — even when the string is not a valid number,
in which case `NaN` overwrites the field — and returns `NOT_A_NUMBER` exactly
when the conversion fails, `null` otherwise. -/
theorem c7_theorem (f : Flag) (value arg : String) (h : f.type = .number) :
    (setFlagValue f value arg).2 = { f with current := .vn (jsToNumber value) } ∧
    ((setFlagValue f value arg).1 = none ↔ ¬jsToNumber value = .nan) ∧
    (jsToNumber value = .nan →
      (setFlagValue f value arg).1 = some (ParserError ErrorKind.NOT_A_NUMBER arg "")) := by
  simp only [setFlagValue, h]
  by_cases hn : jsToNumber value = .nan <;> simp [hn]

/-- Witness for C7: binding the invalid numeric string `"abc"` to the number
flag `count` returns `NOT_A_NUMBER` (and by the theorem stores `NaN`). -/
theorem c7_witness :
    countFlag.type = .number ∧
    (setFlagValue countFlag "abc" "count").1 =
      some (ParserError ErrorKind.NOT_A_NUMBER "count" "") :=
  ⟨rfl, (c7_theorem countFlag "abc" "count" rfl).2.2 (by decide)⟩

/-- Claim C8: binding a raw value to a string-kind flag stores the value
verbatim into `current`, and returns `NOT_ONE_OF` exactly when `oneOf` is
present and does not contain the value, with the allowed set joined by `", "`
(each member quoted by `stringifyString` when it contains whitespace).  For
`oneOf: ["a", "b"]`, supplying `"c"` yields `NOT_ONE_OF` regardless of the
other flags in the registry and of their states. -/
theorem c8_theorem (f : Flag) (value arg : String) (h : f.type = .string) :
    (setFlagValue f value arg).2 = { f with current := .vs value } ∧
    (∀ l, f.oneOf = some l →
       (setFlagValue f value arg).1 =
         (if value ∈ l then none
          else some (ParserError ErrorKind.NOT_ONE_OF arg
              (String.intercalate ", " (l.map stringifyString))))) ∧
    (f.oneOf = none → (setFlagValue f value arg).1 = none) ∧
    (setFlagValue modeFlag "c" "mode").1 =
      some (ParserError ErrorKind.NOT_ONE_OF "mode" "a, b") ∧
    (parse ["--mode", "c"] [modeFlag, verboseFlag]).1 =
      some "the `mode` flag expects one of: a, b" ∧
    (parse ["--mode", "c", "--verbose"] [modeFlag, verboseFlag]).1 =
      some "the `mode` flag expects one of: a, b" := by
  refine ⟨?_, ?_, ?_, by decide, by decide, by decide⟩
  · simp [setFlagValue, h]
  · intro l hl
    simp only [setFlagValue, h, hl]
    by_cases hm : value ∈ l
    · have hc : l.contains value = true := List.elem_iff.mpr hm
      simp [hc, hm, stringify]
    · have hc : l.contains value = false := by
        rcases Bool.eq_false_or_eq_true (l.contains value) with hx | hx
        · exact absurd (List.elem_iff.mp hx) hm
        · exact hx
      simp [hc, hm, stringify]
  · intro hl
    simp [setFlagValue, h, hl]

/-- Witness for C8: binding `"c"` to the `mode` flag (whose `oneOf` is
`["a", "b"]`) produces the `NOT_ONE_OF` error listing the allowed set. -/
theorem c8_witness :
    modeFlag.type = .string ∧ modeFlag.oneOf = some ["a", "b"] ∧
    (setFlagValue modeFlag "c" "mode").1 =
      some (ParserError ErrorKind.NOT_ONE_OF "mode"
        (String.intercalate ", " (["a", "b"].map stringifyString))) :=
  ⟨rfl, rfl, by
    rw [(c8_theorem modeFlag "c" "mode" rfl).2.1 ["a", "b"] rfl]
    decide⟩

/-- Claim C9 (implicit behavior): when a long flag's separated value fails to
bind, `parseLongFlag` returns the error rather than the advanced index, so the
driver does not advance past the value token; the token is re-scanned on the
next iteration and, being POSITIONAL, is appended to the residual positionals.
Concretely `["--count", "abc"]` surfaces `NOT_A_NUMBER`, overwrites
`count.current` with `NaN`, and still collects `"abc"` as a positional. -/
theorem c9_theorem (i : ℕ) (argv : List String) (flags : List Flag)
    (idx : ℕ) (f : Flag) (arg : String) (e : ParseError)
    (harg : ((argv.get? i).getD "").drop 2 = arg)
    (heq : arg.toList.contains '=' = false)
    (hfind : findLongFlag arg flags = some (idx, f, false))
    (hty : ¬f.type = .boolean)
    (hne : ¬(argv.get? (i + 1)).getD "" = "")
    (hpos : parseArgType ((argv.get? (i + 1)).getD "") false = .POSITIONAL)
    (hbind : (setFlagValue f ((argv.get? (i + 1)).getD "") arg).1 = some e) :
    parseLongFlag i argv flags =
      (FlagResult.perr (some e),
       flags.set idx (setFlagValue f ((argv.get? (i + 1)).getD "") arg).2) ∧
    parse ["--count", "abc"] [countFlag] =
      (some "the `count` flag expects a numerical value",
       [{ countFlag with current := .vn .nan }], ["abc"]) := by
  refine ⟨?_, by decide⟩
  simp only [parseLongFlag]
  rw [harg]
  simp only [heq, Bool.false_eq_true, if_false, hfind]
  simp only [if_neg hty]
  rw [if_neg (fun hab => hab.elim hne (fun hb => hb hpos))]
  rw [hbind]

/-- Witness for C9: `--count abc` returns the `NOT_A_NUMBER` error (so the
driver will re-scan `"abc"`) while `NaN` is stored into the flag. -/
theorem c9_witness :
    parseLongFlag 0 ["--count", "abc"] [countFlag] =
      (FlagResult.perr (some (ParserError ErrorKind.NOT_A_NUMBER "count" "")),
       [{ countFlag with current := .vn .nan }]) := by
  have h := (c9_theorem 0 ["--count", "abc"] [countFlag] 0 countFlag "count"
    (ParserError ErrorKind.NOT_A_NUMBER "count" "") (by decide) (by decide) (by decide)
    (by decide) (by decide) (by decide) (by decide)).1
  rw [h]
  decide

/-- Claim C10 (implicit behavior): a bare `"-"` token is classified as a short
flag; its dash-stripped bundle is empty, so the bundle loop matches nothing,
records no error, mutates no flag, and returns the unchanged scan index — the
token is silently dropped, and the scan of `["-"]` ends in exactly the state
of the scan of `[]` (in particular the token is not collected as a
positional). -/
theorem c10_theorem (argPos : ℕ) (args : List String) (flags : List Flag)
    (h : args.get? argPos = some "-") :
    parseShortFlag argPos args flags = (FlagResult.pos argPos, flags) ∧
    parseArgType "-" false = .FLAG_SHORT ∧
    (∀ fl : List Flag, parseScan ["-"] fl = parseScan [] fl) := by
  refine ⟨?_, by decide, fun fl => rfl⟩
  simp only [parseShortFlag, h]
  rfl

/-- Witness for C10 at a concrete registry. -/
theorem c10_witness :
    parseShortFlag 0 ["-"] [countFlag] = (FlagResult.pos 0, [countFlag]) ∧
    parseScan ["-"] [countFlag] = parseScan [] [countFlag] :=
  ⟨(c10_theorem 0 ["-"] [countFlag] rfl).1,
   (c10_theorem 0 ["-"] [countFlag] rfl).2.2 [countFlag]⟩

end Flaglib
